import Mathlib

set_option autoImplicit false

/-
Shallow embedding of the resilient HTTP request layer of the
student-face-recognition mobile client, together with the service wrappers
built on top of it:

* `makeRequest`              — the retrying fetch wrapper of
                               mobile/screens/StudentsListScreen.tsx (lines 40-112)
* `handleApiError`           — the error normalizer of the axios ApiService
                               (src/unnamed/part_004, lines 262-286)
* `getRecognitionStats…`     — the three stats fetchers (part_004, MenuScreen in
                               AppNavigator.js, and src/services/apiService.js)
* `recognizeStudent…`        — the two recognize wrappers (part_004 and
                               src/services/apiService.js)
* `transformRecognition`     — the response adapter of apiService.js (lines 41-48)
* `submitFormFields` etc.    — the multipart form fields built by the two
                               student-creation flows

JavaScript dynamic values are modelled by `JsValue`; absent object properties
are `Option.none` (undefined); `a || b` is `jsOr` with JS falsiness.
-/

namespace FaceClient

/-- JSON-like JavaScript values as they flow through the client.  Numbers are
modelled as rationals: the client never computes with them, it only passes
them through and tests them for falsiness (`NaN` never occurs in the code
paths modelled here). -/
inductive JsValue where
  | null
  | bool (b : Bool)
  | num (q : Rat)
  | str (s : String)
  | arr (elems : List JsValue)
  | obj (fields : List (String × JsValue))
  deriving Repr

/-- First-match field lookup in an object's field list.  The objects built by
the client have distinct keys, so first-match agrees with JS property access. -/
def lookupField : List (String × JsValue) → String → Option JsValue
  | [], _ => none
  | (k, v) :: rest, key => if k = key then some v else lookupField rest key

/-- Property access `v.key`; `none` models JS `undefined` (absent property or
access on a non-object). -/
def getField (v : JsValue) (key : String) : Option JsValue :=
  match v with
  | .obj fields => lookupField fields key
  | _ => none

/-- JS falsiness: `undefined`, `null`, `false`, `0`, and `""` are falsy. -/
def isFalsy : Option JsValue → Bool
  | none => true
  | some .null => true
  | some (.bool b) => !b
  | some (.num q) => q == 0
  | some (.str s) => s.isEmpty
  | some (.arr _) => false
  | some (.obj _) => false

/-- JS `a || b` on a possibly-absent value `a`. -/
def jsOr (v : Option JsValue) (fallback : JsValue) : JsValue :=
  if isFalsy v then fallback else v.getD fallback

/-- What one `fetch` attempt (with its abort timer) delivers to the caller of
`makeRequest`: a response with a status, its raw text and the result of JSON
decoding the body (`none` when `response.json()` would throw), or an aborted
(timed-out) attempt, or a connectivity failure. -/
inductive Outcome where
  | response (status : Nat) (text : String) (json : Option JsValue)
  | timeout
  | netError

/-- The errors a `makeRequest` attempt can raise: the `HTTP <status>: <text>`
error thrown on a non-ok response, the abort error, the network error, the
JSON decode error, and the generic `Request failed after all retries` error
thrown when the loop body never ran. -/
inductive ReqError where
  | http (status : Nat) (text : String)
  | timedOut
  | netFailed
  | decodeFailed
  | exhausted
  deriving Repr, DecidableEq

/-- `response.ok`: status in the 2xx range. -/
def statusOk (status : Nat) : Bool := 200 ≤ status && status < 300

/-- One iteration body of the `makeRequest` retry loop: a 2xx response with a
decodable body returns the decoded data; a 2xx response with an undecodable
body throws from `response.json()`; any non-ok response throws
`HTTP <status>: <text>`; an abort or connectivity failure rethrows. -/
def attemptOutcome : Outcome → Except ReqError JsValue
  | .response status text json =>
    if statusOk status then
      match json with
      | some v => .ok v
      | none => .error .decodeFailed
    else .error (.http status text)
  | .timeout => .error .timedOut
  | .netError => .error .netFailed

/-- The backoff delay waited after failed attempt `attempt`:
`Math.min(1000 * Math.pow(2, attempt - 1), 5000)`. -/
def backoffDelay (attempt : Nat) : Nat := min (1000 * 2 ^ (attempt - 1)) 5000

/-- Observable trace of one `makeRequest` call: the settled result, the number
of attempts issued, and the list of backoff delays awaited (in order). -/
structure RunTrace where
  result : Except ReqError JsValue
  attempts : Nat
  waits : List Nat
  deriving Repr

/-- The retry loop of `makeRequest` from iteration `attempt` on, with
`remaining` iterations left (`remaining = retries - attempt + 1`).  With no
iterations left the trailing `throw lastError || new Error(...)` fires with a
null `lastError`.  A successful attempt returns immediately; a failed final
attempt rethrows its error; otherwise the loop waits `backoffDelay attempt`
and continues. -/
def runFrom (transport : Nat → Outcome) (attempt : Nat) : Nat → RunTrace
  | 0 => ⟨.error .exhausted, 0, []⟩
  | remaining + 1 =>
    match attemptOutcome (transport attempt) with
    | .ok v => ⟨.ok v, 1, []⟩
    | .error e =>
      match remaining with
      | 0 => ⟨.error e, 1, []⟩
      | r + 1 =>
        let rest := runFrom transport (attempt + 1) (r + 1)
        ⟨rest.result, rest.attempts + 1, backoffDelay attempt :: rest.waits⟩

/-- `makeRequest` with a given transport (the outcome of each numbered attempt)
and retry ceiling (`retries`, the loop bound `attempt = 1 .. retries`). -/
def makeRequest (transport : Nat → Outcome) (retries : Nat) : RunTrace :=
  runFrom transport 1 retries

/-- A 4xx response that repeats on every attempt: the transport used to probe
the loop's handling of client errors. -/
def transport400 : Nat → Outcome := fun _ => .response 400 "Bad Request" none

/-- An outcome that counts as a retryable server-side failure for the spec's
step 5: a 5xx response or a timed-out attempt. -/
def serverFailOutcome : Outcome → Bool
  | .response status _ _ => 500 ≤ status
  | .timeout => true
  | .netError => false

/-- A terminal error of the server-failure class: an `HTTP 5xx` error or the
abort error. -/
def terminalServerOrTimeout : ReqError → Bool
  | .http status _ => 500 ≤ status
  | .timedOut => true
  | _ => false

theorem runFrom_ok (transport : Nat → Outcome) (a r : Nat) (v : JsValue)
    (h : attemptOutcome (transport a) = .ok v) :
    runFrom transport a (r + 1) = ⟨.ok v, 1, []⟩ := by
  conv_lhs => rw [runFrom]
  rw [h]

theorem runFrom_err_last (transport : Nat → Outcome) (a : Nat) (e : ReqError)
    (h : attemptOutcome (transport a) = .error e) :
    runFrom transport a 1 = ⟨.error e, 1, []⟩ := by
  conv_lhs => rw [runFrom]
  rw [h]

theorem runFrom_err_cont (transport : Nat → Outcome) (a r : Nat) (e : ReqError)
    (h : attemptOutcome (transport a) = .error e) :
    runFrom transport a (r + 2) =
      ⟨(runFrom transport (a + 1) (r + 1)).result,
        (runFrom transport (a + 1) (r + 1)).attempts + 1,
        backoffDelay a :: (runFrom transport (a + 1) (r + 1)).waits⟩ := by
  conv_lhs => rw [runFrom]
  rw [h]

theorem backoffDelay_shift (i : Nat) : backoffDelay (1 + i) = min (1000 * 2 ^ i) 5000 := by
  have h : 1 + i - 1 = i := by omega
  unfold backoffDelay
  rw [h]

theorem sum_map_range (f : Nat → Nat) (n : Nat) :
    ((List.range n).map f).sum = ∑ i ∈ Finset.range n, f i := by
  induction n with
  | zero => simp
  | succ n ih =>
    rw [List.range_succ, List.map_append, List.sum_append, Finset.sum_range_succ, ih]
    simp

theorem backoff_range_shift (r a : Nat) :
    backoffDelay a :: (List.range r).map (fun i => backoffDelay (a + 1 + i)) =
      (List.range (r + 1)).map (fun i => backoffDelay (a + i)) := by
  rw [List.range_succ_eq_map, List.map_cons, List.map_map]
  congr 1
  apply List.map_congr_left
  intro i _
  show backoffDelay (a + 1 + i) = backoffDelay (a + Nat.succ i)
  congr 1
  omega

theorem runFrom_allFail (transport : Nat → Outcome) (errOf : Nat → ReqError)
    (h : ∀ n, attemptOutcome (transport n) = .error (errOf n)) :
    ∀ (r a : Nat),
      runFrom transport a (r + 1) =
        ⟨.error (errOf (a + r)), r + 1, (List.range r).map (fun i => backoffDelay (a + i))⟩ := by
  intro r
  induction r with
  | zero =>
    intro a
    simp [runFrom, h a]
  | succ r ih =>
    intro a
    have hrest := ih (a + 1)
    simp only [runFrom, h a, hrest]
    have ha : a + 1 + r = a + (r + 1) := by omega
    rw [ha, backoff_range_shift]

theorem makeRequest_allFail (transport : Nat → Outcome) (errOf : Nat → ReqError) (R : Nat)
    (hR : 1 ≤ R) (h : ∀ n, attemptOutcome (transport n) = .error (errOf n)) :
    makeRequest transport R =
      ⟨.error (errOf R), R, (List.range (R - 1)).map (fun i => backoffDelay (1 + i))⟩ := by
  obtain ⟨r, rfl⟩ : ∃ r, R = r + 1 := ⟨R - 1, by omega⟩
  unfold makeRequest
  rw [runFrom_allFail transport errOf h r 1]
  simp [Nat.add_comm]

theorem runFrom_succeedsAfter (transport : Nat → Outcome) (v : JsValue) :
    ∀ (j a r : Nat), j < r →
      (∀ i, i < j → ∃ e, attemptOutcome (transport (a + i)) = .error e) →
      attemptOutcome (transport (a + j)) = .ok v →
      runFrom transport a r =
        ⟨.ok v, j + 1, (List.range j).map (fun i => backoffDelay (a + i))⟩ := by
  intro j
  induction j with
  | zero =>
    intro a r hr _ hok
    obtain ⟨r', rfl⟩ : ∃ r', r = r' + 1 := ⟨r - 1, by omega⟩
    simp only [Nat.add_zero] at hok
    simp [runFrom, hok]
  | succ j ih =>
    intro a r hr hfail hok
    obtain ⟨e0, he0⟩ := hfail 0 (Nat.succ_pos j)
    simp only [Nat.add_zero] at he0
    obtain ⟨r1, rfl⟩ : ∃ r1, r = r1 + 1 := ⟨r - 1, by omega⟩
    obtain ⟨r2, rfl⟩ : ∃ r2, r1 = r2 + 1 := ⟨r1 - 1, by omega⟩
    have hfail' : ∀ i, i < j → ∃ e, attemptOutcome (transport (a + 1 + i)) = .error e := by
      intro i hi
      have hidx : a + 1 + i = a + (i + 1) := by omega
      rw [hidx]
      exact hfail (i + 1) (by omega)
    have hok' : attemptOutcome (transport (a + 1 + j)) = .ok v := by
      have hidx : a + 1 + j = a + (j + 1) := by omega
      rw [hidx]; exact hok
    have hrest := ih (a + 1) (r2 + 1) (by omega) hfail' hok'
    simp only [runFrom, he0, hrest]
    rw [backoff_range_shift]

theorem runFrom_attempts_le (transport : Nat → Outcome) :
    ∀ (r a : Nat), (runFrom transport a r).attempts ≤ r := by
  intro r
  induction r with
  | zero =>
    intro a
    simp [runFrom]
  | succ r ih =>
    intro a
    cases hA : attemptOutcome (transport a) with
    | ok v =>
      rw [runFrom_ok transport a r v hA]
      show 1 ≤ r + 1
      omega
    | error e =>
      match r with
      | 0 =>
        rw [runFrom_err_last transport a e hA]
      | r' + 1 =>
        rw [runFrom_err_cont transport a r' e hA]
        show (runFrom transport (a + 1) (r' + 1)).attempts + 1 ≤ r' + 1 + 1
        have := ih (a + 1)
        omega

/-- C1 counterexample: with the transport answering `400 Bad Request` on every
attempt and the default retry ceiling 3, `makeRequest` issues 3 attempts (the
4xx response is retried), not the single attempt the claim states; the
surfaced error does carry the 4xx status in its message. -/
theorem c1_counterexample :
    (makeRequest transport400 3).attempts = 3 ∧
      (makeRequest transport400 3).attempts ≠ 1 ∧
      (makeRequest transport400 3).result = .error (.http 400 "Bad Request") := by
  refine ⟨by decide, by decide, rfl⟩

/-- C1 (amended): `makeRequest` treats a 4xx response like any other failure
and retries it; with a 4xx response on every attempt and retry ceiling
`R ≥ 1`, the client makes exactly `R` attempts and then surfaces the
`HTTP <status>` error of the final 4xx response. -/
theorem c1_fourxx_retried (transport : Nat → Outcome) (R : Nat) (hR : 1 ≤ R)
    (h4xx : ∀ n, ∃ s t j, transport n = .response s t j ∧ 400 ≤ s ∧ s < 500) :
    (makeRequest transport R).attempts = R ∧
      ∃ s t, (makeRequest transport R).result = .error (.http s t) ∧ 400 ≤ s ∧ s < 500 := by
  have herr : ∀ n, ∃ s t, attemptOutcome (transport n) = .error (.http s t) ∧
      400 ≤ s ∧ s < 500 := by
    intro n
    obtain ⟨s, t, j, heq, hs1, hs2⟩ := h4xx n
    refine ⟨s, t, ?_, hs1, hs2⟩
    have hnotOk : statusOk s = false := by
      simp [statusOk]
      omega
    simp [attemptOutcome, heq, hnotOk]
  classical
  choose sOf tOf hOf h1Of h2Of using herr
  have hrun := makeRequest_allFail transport (fun n => .http (sOf n) (tOf n)) R hR hOf
  rw [hrun]
  exact ⟨rfl, sOf R, tOf R, rfl, h1Of R, h2Of R⟩

/-- C1 witness: the amended statement instantiated with the constant
`400 Bad Request` transport and retry ceiling 3. -/
theorem c1_witness :
    (makeRequest transport400 3).attempts = 3 ∧
      ∃ s t, (makeRequest transport400 3).result = .error (.http s t) ∧ 400 ≤ s ∧ s < 500 :=
  c1_fourxx_retried transport400 3 (by decide)
    (fun _ => ⟨400, "Bad Request", none, rfl, by decide, by decide⟩)

/-- C2: when every attempt fails with a 5xx response or a timeout and the
retry ceiling is `R ≥ 1`, `makeRequest` surfaces a terminal error of the same
class after exactly `R` attempts, waiting `min (1000 * 2 ^ (n - 1)) 5000`
milliseconds after failed attempt `n` for `n = 1 .. R - 1` and nothing after
the final attempt, so the cumulative wait is the claimed sum. -/
theorem c2_retry_exhaustion (transport : Nat → Outcome) (R : Nat) (hR : 1 ≤ R)
    (hfail : ∀ n, serverFailOutcome (transport n) = true) :
    (makeRequest transport R).attempts = R ∧
      (∃ e, (makeRequest transport R).result = .error e ∧ terminalServerOrTimeout e = true) ∧
      (makeRequest transport R).waits =
        (List.range (R - 1)).map (fun i => min (1000 * 2 ^ i) 5000) ∧
      ((makeRequest transport R).waits).sum =
        ∑ i ∈ Finset.range (R - 1), min (1000 * 2 ^ i) 5000 := by
  have herr : ∀ n, ∃ e, attemptOutcome (transport n) = .error e ∧
      terminalServerOrTimeout e = true := by
    intro n
    have hn := hfail n
    cases hx : transport n with
    | response s t j =>
      rw [hx] at hn
      have hs : 500 ≤ s := by simpa [serverFailOutcome] using hn
      have hnotOk : statusOk s = false := by
        simp [statusOk]
        omega
      exact ⟨.http s t, by simp [attemptOutcome, hnotOk], by simpa [terminalServerOrTimeout]⟩
    | timeout =>
      exact ⟨.timedOut, by simp [attemptOutcome], rfl⟩
    | netError =>
      rw [hx] at hn
      simp [serverFailOutcome] at hn
  classical
  choose errOf hOf htOf using herr
  have hrun := makeRequest_allFail transport errOf R hR hOf
  rw [hrun]
  have hw : (List.range (R - 1)).map (fun i => backoffDelay (1 + i)) =
      (List.range (R - 1)).map (fun i => min (1000 * 2 ^ i) 5000) :=
    List.map_congr_left (fun i _ => backoffDelay_shift i)
  refine ⟨rfl, ⟨errOf R, rfl, htOf R⟩, hw, ?_⟩
  show ((List.range (R - 1)).map (fun i => backoffDelay (1 + i))).sum = _
  rw [hw, sum_map_range]

/-- C2 witness: the theorem instantiated with the always-timing-out transport
and retry ceiling 3 (attempts 3, waits 1000 ms then 2000 ms). -/
theorem c2_witness :
    (makeRequest (fun _ => Outcome.timeout) 3).attempts = 3 ∧
      (∃ e, (makeRequest (fun _ => Outcome.timeout) 3).result = .error e ∧
        terminalServerOrTimeout e = true) ∧
      (makeRequest (fun _ => Outcome.timeout) 3).waits =
        (List.range 2).map (fun i => min (1000 * 2 ^ i) 5000) ∧
      ((makeRequest (fun _ => Outcome.timeout) 3).waits).sum =
        ∑ i ∈ Finset.range 2, min (1000 * 2 ^ i) 5000 :=
  c2_retry_exhaustion (fun _ => Outcome.timeout) 3 (by decide) (fun _ => rfl)

/-- C3: when the transport answers 5xx on attempts `1 .. k - 1` and a 2xx
response with a decodable JSON body on attempt `k ≤ R`, `makeRequest` returns
the decoded body as success and issues exactly `k` attempts. -/
theorem c3_success_after_failures (transport : Nat → Outcome) (R k s : Nat)
    (text : String) (v : JsValue) (hk1 : 1 ≤ k) (hkR : k ≤ R)
    (hfail : ∀ n, 1 ≤ n → n < k → ∃ st tx j, transport n = .response st tx j ∧ 500 ≤ st)
    (hsucc : transport k = .response s text (some v)) (hs : statusOk s = true) :
    (makeRequest transport R).result = .ok v ∧ (makeRequest transport R).attempts = k := by
  have hfail' : ∀ i, i < k - 1 → ∃ e, attemptOutcome (transport (1 + i)) = .error e := by
    intro i hi
    obtain ⟨st, tx, j, heq, hst⟩ := hfail (1 + i) (by omega) (by omega)
    have hnotOk : statusOk st = false := by
      simp [statusOk]
      omega
    exact ⟨.http st tx, by simp [attemptOutcome, heq, hnotOk]⟩
  have hok : attemptOutcome (transport (1 + (k - 1))) = .ok v := by
    have hidx : 1 + (k - 1) = k := by omega
    rw [hidx, hsucc]
    simp [attemptOutcome, hs]
  have hrun := runFrom_succeedsAfter transport v (k - 1) 1 R (by omega) hfail' hok
  unfold makeRequest
  rw [hrun]
  refine ⟨rfl, ?_⟩
  show k - 1 + 1 = k
  omega

/-- C3 witness: one 500 response followed by a 200 response with body
`"ok"`, retry ceiling 3: the call returns the body with exactly 2 attempts. -/
theorem c3_witness :
    (makeRequest
        (fun n => if n = 1 then Outcome.response 500 "boom" none
          else Outcome.response 200 "" (some (.str "ok"))) 3).result = .ok (.str "ok") ∧
      (makeRequest
        (fun n => if n = 1 then Outcome.response 500 "boom" none
          else Outcome.response 200 "" (some (.str "ok"))) 3).attempts = 2 :=
  c3_success_after_failures
    (fun n => if n = 1 then Outcome.response 500 "boom" none
      else Outcome.response 200 "" (some (.str "ok")))
    3 2 200 "" (.str "ok") (by decide) (by decide)
    (fun n h1 h2 => by
      have hn : n = 1 := by omega
      subst hn
      exact ⟨500, "boom", none, rfl, by decide⟩)
    rfl (by decide)

/-- C4: every `makeRequest` call settles — the loop issues at most `retries`
attempts (the ceiling is enforced per call), and the trace ends in either a
success value or a surfaced error. -/
theorem c4_terminates_bounded (transport : Nat → Outcome) (retries : Nat) :
    (makeRequest transport retries).attempts ≤ retries ∧
      ((∃ v, (makeRequest transport retries).result = .ok v) ∨
        (∃ e, (makeRequest transport retries).result = .error e)) := by
  refine ⟨runFrom_attempts_le transport retries 1, ?_⟩
  cases h : (makeRequest transport retries).result with
  | ok v => exact Or.inl ⟨v, rfl⟩
  | error e => exact Or.inr ⟨e, rfl⟩

/-- Failure of one axios request as seen by the catch blocks: a non-2xx
response (`error.response` set, carrying the status and the parsed body), a
timed-out request (`error.code == 'ECONNABORTED'`, no response), a request
that never got a response (`error.request` set), or a setup failure
(neither field set, only `error.message`). -/
inductive AxiosError where
  | badStatus (status : Nat) (data : JsValue)
  | timedOut
  | noReply
  | setupFailure (message : String)
  deriving Repr

/-- Outcome of one axios request: resolved with the decoded 2xx body, or
rejected with an `AxiosError`. -/
inductive AxiosOutcome where
  | success (data : JsValue)
  | failure (e : AxiosError)
  deriving Repr

/-- The message of the `Error` thrown by `handleApiError` of the axios
ApiService (src/unnamed/part_004, lines 262-286).  A 400 answer surfaces
`data?.detail || 'Datos inválidos'`; 404 and 422 surface their fixed
messages; 5xx surfaces the server message; any other status with a response
surfaces `data?.detail || defaultMessage`; no response surfaces the
connectivity message; a setup failure surfaces
`error.message || defaultMessage`. -/
def handleApiError (e : AxiosError) (defaultMessage : String) : JsValue :=
  match e with
  | .badStatus status data =>
    if status = 400 then jsOr (getField data "detail") (.str "Datos inválidos")
    else if status = 404 then .str "Recurso no encontrado"
    else if status = 422 then .str "Error de validación de datos"
    else if 500 ≤ status then .str "Error interno del servidor"
    else jsOr (getField data "detail") (.str defaultMessage)
  | .timedOut => .str "Sin conexión al servidor"
  | .noReply => .str "Sin conexión al servidor"
  | .setupFailure m => if m.isEmpty then .str defaultMessage else .str m

/-- The zeroed default stats object substituted on a failed stats fetch. -/
def defaultStats : JsValue :=
  .obj [("total_recognitions", .num 0), ("successful_recognitions", .num 0),
    ("success_rate", .num 0)]

/-- getRecognitionStats of the axios ApiService (src/unnamed/part_004, lines
232-246): a failure is swallowed and the zeroed default object returned. -/
def getRecognitionStatsV2 : AxiosOutcome → JsValue
  | .success d => d
  | .failure _ => defaultStats

/-- getRecognitionStats of the MenuScreen service (AppNavigator.js, lines
782-803): a non-ok status throws, an undecodable body throws, and every
caught error is replaced by the zeroed default object. -/
def getRecognitionStatsMenu (o : Outcome) : JsValue :=
  match attemptOutcome o with
  | .ok v => v
  | .error _ => defaultStats

/-- getRecognitionStats of src/mobile/src/services/apiService.js (lines
206-214): the catch block logs and rethrows, so the failure propagates to
the caller. -/
def getRecognitionStatsV1 : AxiosOutcome → Except AxiosError JsValue
  | .success d => .ok d
  | .failure e => .error e

/-- The response adapter of recognizeStudent in
src/mobile/src/services/apiService.js (lines 41-48): rebuilds the result
with `success`/`found` both taken from `backendData.found || false`,
`student` defaulted to null, and `similarity`/`confidence`/`message`
defaulted to `0`/`'Baja'`/`'Procesado correctamente'`. -/
def transformRecognition (backendData : JsValue) : JsValue :=
  .obj [
    ("success", jsOr (getField backendData "found") (.bool false)),
    ("found", jsOr (getField backendData "found") (.bool false)),
    ("student", jsOr (getField backendData "student") .null),
    ("similarity", jsOr (getField backendData "similarity") (.num 0)),
    ("confidence", jsOr (getField backendData "confidence") (.str "Baja")),
    ("message", jsOr (getField backendData "message") (.str "Procesado correctamente"))]

/-- recognizeStudent of src/mobile/src/services/apiService.js (lines 19-57):
a 2xx body is passed through `transformRecognition`; any error is logged and
rethrown unchanged. -/
def recognizeStudentV1 : AxiosOutcome → Except AxiosError JsValue
  | .success d => .ok (transformRecognition d)
  | .failure e => .error e

/-- Failure surfaced by recognizeStudent of the axios ApiService: either a
new `Error` wrapping a message, or the original axios error rethrown. -/
inductive RecogFailure where
  | wrapped (msg : JsValue)
  | passthrough (e : AxiosError)
  deriving Repr

/-- recognizeStudent of the axios ApiService (src/unnamed/part_004, lines
46-95): a 2xx body is returned unmodified; a timeout, a 400 answer, a 5xx
answer and a missing response are wrapped into fixed messages (the 400
message preferring `data?.detail`); any other rejection is rethrown. -/
def recognizeStudentV2 : AxiosOutcome → Except RecogFailure JsValue
  | .success d => .ok d
  | .failure .timedOut =>
    .error (.wrapped (.str "⏱️ Timeout: El reconocimiento está tomando demasiado tiempo"))
  | .failure (.badStatus status data) =>
    if status = 400 then
      .error (.wrapped (jsOr (getField data "detail")
        (.str "Imagen inválida o sin rostro detectado")))
    else if 500 ≤ status then
      .error (.wrapped (.str "🔧 Error del servidor. Intenta nuevamente."))
    else .error (.passthrough (.badStatus status data))
  | .failure .noReply =>
    .error (.wrapped (.str "🌐 Sin conexión al servidor. Verifica tu internet."))
  | .failure (.setupFailure _) =>
    .error (.wrapped (.str "🌐 Sin conexión al servidor. Verifica tu internet."))

/-- What the wire does for one recognize call: the server replies with a
status and decoded JSON body after `afterMs` milliseconds, or the connection
drops and no response ever arrives. -/
inductive WireEvent where
  | reply (afterMs : Nat) (status : Nat) (body : JsValue)
  | disconnected

/-- Axios request semantics for one call with a timeout budget: the reply is
delivered when it arrives within the budget (resolving on 2xx, rejecting
with the response otherwise); the abort error fires when the budget elapses
first; a dropped connection rejects with no response. -/
def axiosSend (timeoutMs : Nat) : WireEvent → AxiosOutcome
  | .reply afterMs status body =>
    if timeoutMs < afterMs then .failure .timedOut
    else if statusOk status then .success body
    else .failure (.badStatus status body)
  | .disconnected => .failure .noReply

/-- The recognize call of the axios ApiService: one POST with the
120000 ms timeout configured at the call site (part_004, line 66). -/
def recognizeCallV2 (w : WireEvent) : Except RecogFailure JsValue :=
  recognizeStudentV2 (axiosSend 120000 w)

/-- The array guard `Array.isArray(students) ? students : []` applied to a
decoded response body. -/
def arrayGuard (v : JsValue) : JsValue :=
  match v with
  | .arr xs => .arr xs
  | _ => .arr []

/-- Error surfaced by apiService.getStudents of StudentsListScreen: the catch
block wraps the terminal error in a new message
(`No se pudieron cargar los estudiantes: ...`). -/
inductive ListError where
  | wrapped (cause : ReqError)
  deriving Repr, DecidableEq

/-- apiService.getStudents of StudentsListScreen.tsx (lines 116-129):
`makeRequest` with retries 5, the decoded body passed through the
`Array.isArray` guard, a terminal error rewrapped with a new message. -/
def getStudentsList (transport : Nat → Outcome) : Except ListError JsValue :=
  match (makeRequest transport 5).result with
  | .ok v => .ok (arrayGuard v)
  | .error e => .error (.wrapped e)

/-- getStudents of the MenuScreen service (AppNavigator.js, lines 764-780):
one fetch, a non-ok status throws, the decoded body is passed through the
`Array.isArray` guard, a caught error is rethrown. -/
def getStudentsMenu (o : Outcome) : Except ReqError JsValue :=
  match attemptOutcome o with
  | .ok v => .ok (arrayGuard v)
  | .error e => .error e

/-- JS whitespace recognised by the model of `String.prototype.trim` (the
ASCII fragment; the forms in the app only ever contain ASCII input). -/
def isJsSpace (c : Char) : Bool :=
  c == ' ' || c == '\t' || c == '\n' || c == '\r' || c == '\x0b' || c == '\x0c'

/-- Model of `String.prototype.trim`: strip leading and trailing whitespace. -/
def jsTrim (s : String) : String :=
  String.mk (((s.data.dropWhile isJsSpace).reverse.dropWhile isJsSpace).reverse)

/-- ASCII case mapping of `String.prototype.toUpperCase`. -/
def upperChar (c : Char) : Char :=
  if 'a' ≤ c ∧ c ≤ 'z' then Char.ofNat (c.toNat - 32) else c

/-- Model of `String.prototype.toUpperCase` (ASCII fragment). -/
def jsToUpper (s : String) : String := String.mk (s.data.map upperChar)

/-- ASCII case mapping of `String.prototype.toLowerCase`. -/
def lowerChar (c : Char) : Char :=
  if 'A' ≤ c ∧ c ≤ 'Z' then Char.ofNat (c.toNat + 32) else c

/-- Model of `String.prototype.toLowerCase` (ASCII fragment). -/
def jsToLower (s : String) : String := String.mk (s.data.map lowerChar)

/-- The text fields of a student form as held in component state. -/
structure StudentForm where
  nombre : String
  apellidos : String
  codigo : String
  correo : String
  requisitoriado : Bool

/-- The multipart text fields built by AddStudentScreen.submitForm
(AddStudentScreen.tsx, lines 184-189): every text field trimmed, the codigo
uppercased, the correo lowercased, the flag stringified. -/
def submitFormFields (f : StudentForm) : List (String × String) :=
  [("nombre", jsTrim f.nombre),
    ("apellidos", jsTrim f.apellidos),
    ("codigo", jsToUpper (jsTrim f.codigo)),
    ("correo", jsToLower (jsTrim f.correo)),
    ("requisitoriado", if f.requisitoriado then "true" else "false")]

/-- The multipart text fields built by createStudent of the axios ApiService
(src/unnamed/part_004, lines 129-133) from the `studentData` it is handed:
the strings are forwarded unchanged. -/
def createStudentFields (f : StudentForm) : List (String × String) :=
  [("nombre", f.nombre),
    ("apellidos", f.apellidos),
    ("codigo", f.codigo),
    ("correo", f.correo),
    ("requisitoriado", if f.requisitoriado then "true" else "false")]

/-- CreateStudentScreen.js keeps the codigo field uppercased at input time
(line 284, `value.toUpperCase()` on every change) and submits its formData
to ApiService.createStudent unchanged, so the codigo sent on this path is
the uppercased but untrimmed operator input. -/
def createStudentScreenFields (nombre apellidos typedCodigo correo : String)
    (req : Bool) : List (String × String) :=
  createStudentFields ⟨nombre, apellidos, jsToUpper typedCodigo, correo, req⟩

/-- First-match lookup among string form fields. -/
def lookupStrField : List (String × String) → String → Option String
  | [], _ => none
  | (k, v) :: rest, key => if k = key then some v else lookupStrField rest key

theorem arrayGuard_isArr (v : JsValue) : ∃ xs, arrayGuard v = .arr xs := by
  cases v <;> exact ⟨_, rfl⟩

theorem arrayGuard_of_nonArr (v : JsValue) (h : ∀ xs, v ≠ .arr xs) :
    arrayGuard v = .arr [] := by
  cases v with
  | arr xs => exact absurd rfl (h xs)
  | null => rfl
  | bool b => rfl
  | num q => rfl
  | str s => rfl
  | obj fields => rfl

/-- C5 counterexample: getRecognitionStats of
src/mobile/src/services/apiService.js rethrows a transport failure instead
of substituting the zeroed default object, so its caller sees the exception. -/
theorem c5_counterexample :
    getRecognitionStatsV1 (AxiosOutcome.failure .noReply) = .error AxiosError.noReply ∧
      getRecognitionStatsV1 (AxiosOutcome.failure .noReply) ≠ .ok defaultStats :=
  ⟨rfl, fun h => Except.noConfusion h⟩

/-- C5 (amended): on a failed stats fetch, the axios ApiService of part_004
and the MenuScreen service both swallow the failure and return the zeroed
default object, while getRecognitionStats of
src/mobile/src/services/apiService.js propagates the error to its caller. -/
theorem c5_stats_default (e : AxiosError) (o : Outcome)
    (ho : ∃ err, attemptOutcome o = .error err) :
    getRecognitionStatsV2 (.failure e) = defaultStats ∧
      getRecognitionStatsMenu o = defaultStats ∧
      getRecognitionStatsV1 (.failure e) = .error e := by
  obtain ⟨err, herr⟩ := ho
  refine ⟨rfl, ?_, rfl⟩
  simp [getRecognitionStatsMenu, herr]

/-- C5 witness: the amended statement at a dropped-connection failure. -/
theorem c5_witness :
    getRecognitionStatsV2 (.failure .noReply) = defaultStats ∧
      getRecognitionStatsMenu Outcome.netError = defaultStats ∧
      getRecognitionStatsV1 (.failure .noReply) = .error AxiosError.noReply :=
  c5_stats_default .noReply Outcome.netError ⟨.netFailed, rfl⟩

/-- C6 counterexample: a 404 response whose body carries a nonempty `detail`
is surfaced as the generic not-found message, not as that detail. -/
theorem c6_counterexample :
    handleApiError (.badStatus 404 (.obj [("detail", .str "No existe el estudiante 7")]))
        "No se pudo obtener el estudiante" = .str "Recurso no encontrado" ∧
      JsValue.str "Recurso no encontrado" ≠ .str "No existe el estudiante 7" := by
  refine ⟨rfl, fun h => ?_⟩
  exact absurd (JsValue.str.inj h) (by decide)

/-- C6 (amended): in `handleApiError`, a 400 response surfaces the body's
`detail` when present and truthy, and the generic invalid-input message when
the field is absent; 404 and 422 responses always surface their generic
messages, ignoring any `detail` the body carries. -/
theorem c6_detail_handling (data : JsValue) (dm : String) :
    (∀ d, getField data "detail" = some (.str d) → d.isEmpty = false →
      handleApiError (.badStatus 400 data) dm = .str d) ∧
      (getField data "detail" = none →
        handleApiError (.badStatus 400 data) dm = .str "Datos inválidos") ∧
      handleApiError (.badStatus 404 data) dm = .str "Recurso no encontrado" ∧
      handleApiError (.badStatus 422 data) dm = .str "Error de validación de datos" := by
  refine ⟨?_, ?_, rfl, rfl⟩
  · intro d hd hne
    simp [handleApiError, hd, jsOr, isFalsy, hne]
  · intro hd
    simp [handleApiError, hd, jsOr, isFalsy]

/-- C6 witness: the amended statement at a 400 response with detail
`correo inválido` and at a 404 response with the same body. -/
theorem c6_witness :
    handleApiError (.badStatus 400 (.obj [("detail", .str "correo inválido")])) "x" =
        .str "correo inválido" ∧
      handleApiError (.badStatus 404 (.obj [("detail", .str "correo inválido")])) "x" =
        .str "Recurso no encontrado" := by
  have h := c6_detail_handling (.obj [("detail", .str "correo inválido")]) "x"
  exact ⟨h.1 "correo inválido" rfl (by decide), h.2.2.1⟩

/-- The scenario payload of the recognize claim. -/
def recognizePayload : JsValue :=
  .obj [("found", .bool true),
    ("student", .obj [("id", .num 1), ("nombre", .str "Ana")]),
    ("similarity", .num (87/100)),
    ("confidence", .str "high")]

/-- C7 counterexample: recognizeStudent of
src/mobile/src/services/apiService.js does not return the 2xx payload
unmodified — on the scenario payload it returns the transformed object,
which carries a `message` field the payload does not have. -/
theorem c7_counterexample :
    recognizeStudentV1 (.success recognizePayload) ≠ .ok recognizePayload := by
  intro h
  have h' : transformRecognition recognizePayload = recognizePayload := Except.ok.inj h
  have h1 : getField (transformRecognition recognizePayload) "message" =
      some (.str "Procesado correctamente") := rfl
  rw [h'] at h1
  have h2 : getField recognizePayload "message" = none := rfl
  rw [h2] at h1
  exact Option.noConfusion h1

/-- C7 (amended): for a recognize call in which the backend answers 2xx with
a JSON payload within the 120000 ms budget, the axios ApiService of part_004
returns the payload to the caller unmodified on its single attempt (this
client has no retry loop); the older apiService.js wrapper instead returns
the payload transformed. -/
theorem c7_recognize_success (afterMs status : Nat) (body : JsValue)
    (ht : afterMs ≤ 120000) (hs : statusOk status = true) :
    recognizeCallV2 (.reply afterMs status body) = .ok body ∧
      recognizeStudentV1 (.success body) = .ok (transformRecognition body) := by
  have hlt : ¬ (120000 < afterMs) := by omega
  refine ⟨?_, rfl⟩
  simp [recognizeCallV2, axiosSend, hlt, hs, recognizeStudentV2]

/-- C7 witness: the amended statement with the server replying after 90 s
with the scenario payload. -/
theorem c7_witness :
    recognizeCallV2 (.reply 90000 200 recognizePayload) = .ok recognizePayload ∧
      recognizeStudentV1 (.success recognizePayload) =
        .ok (transformRecognition recognizePayload) :=
  c7_recognize_success 90000 200 recognizePayload (by omega) (by decide)

/-- C8 counterexample: on the CreateStudentScreen → ApiService.createStudent
path, the typed codigo ` abc123 ` (which passes that screen's validation:
nonempty after trim, length at least 6) is sent as ` ABC123 `, uppercased
but untrimmed — it differs from the trimmed uppercased input `ABC123`. -/
theorem c8_counterexample :
    lookupStrField (createStudentScreenFields "Ana" "Diaz" " abc123 " "a@b.com" false)
        "codigo" = some " ABC123 " ∧
      some " ABC123 " ≠ some (jsToUpper (jsTrim " abc123 ")) := by
  refine ⟨rfl, ?_⟩
  decide

/-- C8 (amended): the codigo form field is uppercased on both creation
paths, but trimmed only on the AddStudentScreen path: submitForm sends the
trimmed uppercased input, while the CreateStudentScreen path sends the
uppercased input untrimmed. -/
theorem c8_codigo_normalization (f : StudentForm)
    (nombre apellidos typedCodigo correo : String) (req : Bool) :
    lookupStrField (submitFormFields f) "codigo" = some (jsToUpper (jsTrim f.codigo)) ∧
      lookupStrField (createStudentScreenFields nombre apellidos typedCodigo correo req)
        "codigo" = some (jsToUpper typedCodigo) :=
  ⟨rfl, rfl⟩

/-- C9: a successfully completed getStudents call returns an array in both
guarded implementations: a success value is always an array, and a 2xx body
that is not an array comes back as the empty array. -/
theorem c9_getStudents_array (transport : Nat → Outcome) (o : Outcome) :
    (∀ v, getStudentsList transport = .ok v → ∃ xs, v = .arr xs) ∧
      (∀ v, getStudentsMenu o = .ok v → ∃ xs, v = .arr xs) ∧
      (∀ v, (makeRequest transport 5).result = .ok v → (∀ xs, v ≠ .arr xs) →
        getStudentsList transport = .ok (.arr [])) ∧
      (∀ v, attemptOutcome o = .ok v → (∀ xs, v ≠ .arr xs) →
        getStudentsMenu o = .ok (.arr [])) := by
  refine ⟨?_, ?_, ?_, ?_⟩
  · intro v hv
    unfold getStudentsList at hv
    cases hr : (makeRequest transport 5).result with
    | ok w =>
      rw [hr] at hv
      obtain ⟨xs, hxs⟩ := arrayGuard_isArr w
      exact ⟨xs, by rw [← Except.ok.inj hv, hxs]⟩
    | error e =>
      rw [hr] at hv
      exact Except.noConfusion hv
  · intro v hv
    unfold getStudentsMenu at hv
    cases hr : attemptOutcome o with
    | ok w =>
      rw [hr] at hv
      obtain ⟨xs, hxs⟩ := arrayGuard_isArr w
      exact ⟨xs, by rw [← Except.ok.inj hv, hxs]⟩
    | error e =>
      rw [hr] at hv
      exact Except.noConfusion hv
  · intro v hv hna
    unfold getStudentsList
    rw [hv]
    show Except.ok (arrayGuard v) = _
    rw [arrayGuard_of_nonArr v hna]
  · intro v hv hna
    unfold getStudentsMenu
    rw [hv]
    show Except.ok (arrayGuard v) = _
    rw [arrayGuard_of_nonArr v hna]

/-- C9 witness: a transport answering 2xx with a non-array object body makes
both implementations return the empty array. -/
theorem c9_witness :
    getStudentsList (fun _ => Outcome.response 200 "" (some (.obj [("detail", .str "x")]))) =
        .ok (.arr []) ∧
      getStudentsMenu (Outcome.response 200 "" (some (.obj []))) = .ok (.arr []) := by
  have h := c9_getStudents_array
    (fun _ => Outcome.response 200 "" (some (.obj [("detail", .str "x")])))
    (Outcome.response 200 "" (some (.obj [])))
  exact ⟨h.2.2.1 (.obj [("detail", .str "x")]) rfl (fun xs hx => JsValue.noConfusion hx),
    h.2.2.2 (.obj []) rfl (fun xs hx => JsValue.noConfusion hx)⟩

/-- C10: every result of the transforming recognizeStudent satisfies
`success == found`; its `similarity`, `confidence` and `message` fields are
always present, equal to the defaults `0`, `Baja`, `Procesado correctamente`
whenever the backend field is absent or falsy; and `student` is null when
absent from the backend response. -/
theorem c10_transform_invariants (b : JsValue) :
    getField (transformRecognition b) "success" = getField (transformRecognition b) "found" ∧
      (getField (transformRecognition b) "similarity").isSome = true ∧
      (getField (transformRecognition b) "confidence").isSome = true ∧
      (getField (transformRecognition b) "message").isSome = true ∧
      (isFalsy (getField b "similarity") = true →
        getField (transformRecognition b) "similarity" = some (.num 0)) ∧
      (isFalsy (getField b "confidence") = true →
        getField (transformRecognition b) "confidence" = some (.str "Baja")) ∧
      (isFalsy (getField b "message") = true →
        getField (transformRecognition b) "message" = some (.str "Procesado correctamente")) ∧
      (getField b "student" = none →
        getField (transformRecognition b) "student" = some .null) := by
  refine ⟨rfl, rfl, rfl, rfl, ?_, ?_, ?_, ?_⟩
  · intro h
    show some (jsOr (getField b "similarity") (.num 0)) = _
    rw [jsOr, h]
    rfl
  · intro h
    show some (jsOr (getField b "confidence") (.str "Baja")) = _
    rw [jsOr, h]
    rfl
  · intro h
    show some (jsOr (getField b "message") (.str "Procesado correctamente")) = _
    rw [jsOr, h]
    rfl
  · intro h
    show some (jsOr (getField b "student") .null) = _
    rw [jsOr, h]
    rfl

/-- C10 witness: the invariants at the empty backend response, where every
field falls back to its default. -/
theorem c10_witness :
    getField (transformRecognition (.obj [])) "success" =
        getField (transformRecognition (.obj [])) "found" ∧
      getField (transformRecognition (.obj [])) "similarity" = some (.num 0) ∧
      getField (transformRecognition (.obj [])) "confidence" = some (.str "Baja") ∧
      getField (transformRecognition (.obj [])) "message" =
        some (.str "Procesado correctamente") ∧
      getField (transformRecognition (.obj [])) "student" = some .null := by
  have h := c10_transform_invariants (.obj [])
  exact ⟨h.1, h.2.2.2.2.1 rfl, h.2.2.2.2.2.1 rfl, h.2.2.2.2.2.2.1 rfl, h.2.2.2.2.2.2.2 rfl⟩

end FaceClient
